import Mathlib

/-!
# Verification of the ollama-middleware structured-output core

Shallow embedding of `ollama-middleware.js`, the single source file of the
repository.  JavaScript values flowing through the pipeline are modelled by
the inductive type `Json`; the library primitives used by the source
(`JSON.parse`, the two extraction regexes, `JSON.stringify`) are collected in
the parameter structure `JsPrims`, and the upstream Ollama chat service
(`axios.post` to `/api/chat`) is a function argument `ollama`.  Concrete
executable instantiations of all primitives are provided further below so
that every statement can be evaluated on concrete inputs.

Machine-specific aspects that no stated property depends on are not modelled:
`timestamp` and `latency` fields of responses (real time), floating point
numeric literals (numbers are modelled as integers), and property lookup
through JavaScript prototype chains (`'k' in obj` is modelled as own-key
membership, `Object.entries` as own enumerable entries).
-/

set_option maxRecDepth 10000

/-- A JSON value, as produced by `JSON.parse` in the source.  Objects keep
their insertion-ordered key/value list. -/
inductive Json where
  | null
  | bool (b : Bool)
  | num (n : Int)
  | str (s : String)
  | arr (xs : List Json)
  | obj (kvs : List (String × Json))

/-- `typeof v === 'number'` in the source. -/
def Json.isNum : Json → Bool
  | .num _ => true
  | _ => false

/-- `typeof v === 'string'` in the source. -/
def Json.isStr : Json → Bool
  | .str _ => true
  | _ => false

/-- `typeof v === 'boolean'` in the source. -/
def Json.isBool : Json → Bool
  | .bool _ => true
  | _ => false

/-- `Array.isArray(v)` in the source. -/
def Json.isArr : Json → Bool
  | .arr _ => true
  | _ => false

/-- `typeof v === 'object' && !Array.isArray(v) && v !== null` in the source. -/
def Json.isObj : Json → Bool
  | .obj _ => true
  | _ => false

/-- Own-key membership in a JSON object value. -/
def Json.hasKey (j : Json) (k : String) : Bool :=
  match j with
  | .obj kvs => kvs.any (fun p => p.1 == k)
  | _ => false

/-- JavaScript truthiness of a JSON value. -/
def jsTruthy : Json → Bool
  | .null => false
  | .bool b => b
  | .num n => !(n == 0)
  | .str s => !(s == "")
  | .arr _ => true
  | .obj _ => true

/-- The JavaScript `in` operator on a parsed JSON value: `some b` when
`k in v` evaluates to `b`, `none` when it throws a `TypeError` (which it
does on every primitive value and on `null`).  Prototype-chain members of
objects and arrays are not modelled; membership is own-key membership
(for arrays: the index keys and `length`). -/
def jsInData (k : String) : Json → Option Bool
  | .obj kvs => some (kvs.any (fun p => p.1 == k))
  | .arr xs => some (k == "length" || (List.range xs.length).any (fun i => toString i == k))
  | _ => none

/-- `v[k]` on a value for which `k in v` held. -/
def jsIndex (v : Json) (k : String) : Json :=
  match v with
  | .obj kvs => ((kvs.find? (fun p => p.1 == k)).map (fun p => p.2)).getD .null
  | .arr xs =>
    if k == "length" then .num xs.length
    else (((List.range xs.length).find? (fun i => toString i == k)).bind (fun i => xs[i]?)).getD .null
  | _ => .null

/-- `Object.entries(v)`: `some` of the own enumerable entries, `none` when it
throws (only on `null`, which stands for both `null` and `undefined` data). -/
def jsEntries : Json → Option (List (String × Json))
  | .null => none
  | .obj kvs => some kvs
  | .arr xs => some ((List.range xs.length).zip xs |>.map (fun p => (toString p.1, p.2)))
  | .str s => some ((List.range s.length).zip s.toList |>.map (fun p => (toString p.1, Json.str (String.mk [p.2]))))
  | .num _ => some []
  | .bool _ => some []

/-- JavaScript object property assignment `o[k] = v`: updates the value in
place when the key exists, otherwise appends the pair, preserving insertion
order exactly as JavaScript objects do. -/
def objAssign (kvs : List (String × Json)) (k : String) (v : Json) : List (String × Json) :=
  if kvs.any (fun p => p.1 == k) then
    kvs.map (fun p => if p.1 == k then (k, v) else p)
  else
    kvs ++ [(k, v)]

/-- A per-property sub-schema `{type, description?}` (§3 of the spec,
`schema.properties[name]` in the source). -/
structure PropSchema where
  type : Option String
  description : Option String

/-- A caller-supplied JSON schema: `type`, `properties`, `required`, each
possibly absent, mirroring the fields the source reads. -/
structure Schema where
  type : Option String
  properties : Option (List (String × PropSchema))
  required : Option (List String)

/-- `schema.properties?.[k]` in the source. -/
def propFind (schema : Schema) (k : String) : Option PropSchema :=
  match schema.properties with
  | none => none
  | some props => (props.find? (fun q => q.1 == k)).map (fun q => q.2)

/-- The required-property loop of `validateAgainstSchema` (source lines
39-45): for each required name, `prop in data`; a `TypeError` (`none`)
aborts, a missing property yields `some false`. -/
def checkRequired : List String → Json → Option Bool
  | [], _ => some true
  | k :: ks, data =>
    match jsInData k data with
    | none => none
    | some false => some false
    | some true => checkRequired ks data

/-- The type-mismatch condition of `validateAgainstSchema` (source lines
51-55), one disjunct per line of the source:
`number`/`string`/`boolean` compare `typeof value`, `array` uses
`Array.isArray`, and `object` additionally excludes arrays and `null`. -/
def typeMismatch (t : String) (v : Json) : Bool :=
  (t == "number" && !v.isNum) ||
  (t == "string" && !v.isStr) ||
  (t == "boolean" && !v.isBool) ||
  (t == "array" && !v.isArr) ||
  (t == "object" && !v.isObj)

/-- The `Object.entries` loop of `validateAgainstSchema` (source lines
48-60): a type check fires only when the property has a sub-schema with a
truthy `type` (the guard `propSchema && propSchema.type`). -/
def checkTypes (schema : Schema) (entries : List (String × Json)) : Bool :=
  entries.all (fun p =>
    match propFind schema p.1 with
    | some ps =>
      match ps.type with
      | some t => if t == "" then true else !(typeMismatch t p.2)
      | none => true
    | none => true)

/-- `validateAgainstSchema(data, schema)` (source lines 36-67).  The
surrounding `try/catch` returning `false` on any internal fault is modelled
by the `none` branches of `checkRequired` and `jsEntries`. -/
def validateAgainstSchema (data : Json) (schema : Schema) : Bool :=
  match checkRequired ((schema.required).getD []) data with
  | none => false
  | some false => false
  | some true =>
    match jsEntries data with
    | none => false
    | some entries => checkTypes schema entries

/-- The minimal value `createMinimalValidObject` picks for one required
property (source lines 203-222), including the `description ||` fallback
that treats an empty description as absent. -/
def minimalValue (propName : String) (ps : PropSchema) : Json :=
  match ps.type with
  | some "string" =>
    match ps.description with
    | some d => if d == "" then .str (propName ++ " autogenerado") else .str d
    | none => .str (propName ++ " autogenerado")
  | some "number" => .num 0
  | some "integer" => .num 0
  | some "boolean" => .bool false
  | some "array" => .arr []
  | some "object" => .obj []
  | _ => .null

/-- One iteration of the `for (const propName of required)` loop of
`createMinimalValidObject`: `if (!propSchema) continue`, otherwise assign
the minimal value. -/
def minimalStep (props : List (String × PropSchema)) (acc : List (String × Json)) (propName : String) :
    List (String × Json) :=
  match (props.find? (fun q => q.1 == propName)).map (fun q => q.2) with
  | none => acc
  | some ps => objAssign acc propName (minimalValue propName ps)

/-- `createMinimalValidObject(schema)` (source lines 190-226).  The argument
is `Option Schema` because the source guards `!schema`; `!schema.properties`
is the `properties = none` branch (an empty `properties` object is truthy in
JavaScript and passes the guard). -/
def createMinimalValidObject (schema : Option Schema) : Json :=
  match schema with
  | none => .obj [("error", .str "No se pudo generar JSON válido de la respuesta")]
  | some s =>
    match s.properties with
    | none => .obj [("error", .str "No se pudo generar JSON válido de la respuesta")]
    | some props => .obj (((s.required).getD []).foldl (minimalStep props) [])

/-- A chat message `{role, content}`. -/
structure Message where
  role : String
  content : String

/-- Result of one `axios.post` to the Ollama `/api/chat` collaborator:
`fail` when the promise rejects (network fault or non-2xx status),
`noContent` when it resolves but `data.message.content` is missing or
undefined, and `content s` when `data.message.content` is the string `s`. -/
inductive Upstream where
  | fail
  | noContent
  | content (s : String)

/-- The JavaScript library primitives used by the source, abstracted:
`parse` is `JSON.parse` (`none` when it throws); `codeBlock` is
`text.match(/```(?:json)?\n?([\s\S]*?)\n?```/)` returning the whole match
and the captured group; `braceSpan` is `text.match(/\{[\s\S]*\}/)` returning
the whole match; the two stringify fields are `JSON.stringify(schema, null, 2)`
and `JSON.stringify(schema)`.  Every theorem quantified over a `JsPrims`
holds in particular for the real JavaScript primitives; executable
instantiations are defined below as `defaultPrims`. -/
structure JsPrims where
  parse : String → Option Json
  codeBlock : String → Option (String × String)
  braceSpan : String → Option String
  stringifyPretty : Schema → String
  stringifyCompact : Option Schema → String

/-- `createJsonFormatSystemPrompt(schema)` (source lines 74-82), taking the
already-serialized schema text. -/
def createJsonFormatSystemPrompt (schemaStr : String) : String :=
  "Debes responder con JSON válido que siga estrictamente este esquema:\n" ++ schemaStr ++
  "\n\nNo incluyas explicaciones, formato markdown ni texto fuera de la estructura JSON.\n" ++
  "Tu respuesta completa debe poder analizarse como JSON. No envuelvas el JSON en bloques de código ni markdown.\n" ++
  "Responde únicamente con un objeto JSON válido que coincida con el esquema anterior."

/-- The two-message transformation conversation `generateJsonFromText` sends
to the completion service (source lines 144-153). -/
def generateJsonPrompt (P : JsPrims) (text : String) (schema : Option Schema) : List Message :=
  [{ role := "system",
     content := "Eres un asistente de transformación JSON. Convierte el siguiente texto en un objeto JSON válido que siga el esquema especificado. Solo genera el objeto JSON sin explicaciones ni markdown." },
   { role := "user",
     content := "Convierte este texto a JSON siguiendo este esquema: " ++ P.stringifyCompact schema ++
       "\n\nTexto a convertir: " ++ text }]

/-- The parse attempt `generateJsonFromText` makes on the completion's output
(source lines 165-177): `jsonMatch = match(fenced) || match(brace)`; if some
pattern matched, `JSON.parse(jsonMatch[1] || jsonMatch[0])` — the captured
group, or the whole match when the group is empty or absent; only when
neither pattern matched, `JSON.parse(jsonContent)` directly.  A single parse
is attempted; `none` means that parse threw. -/
def regenParse (P : JsPrims) (jsonContent : String) : Option Json :=
  match P.codeBlock jsonContent with
  | some (whole, grp) => P.parse (if grp == "" then whole else grp)
  | none =>
    match P.braceSpan jsonContent with
    | some whole => P.parse whole
    | none => P.parse jsonContent

/-- `generateJsonFromText(text, schema)` (source lines 141-183).  The second
component is the list of completion-service calls issued (always exactly the
transformation prompt).  The `try/catch` returning
`createMinimalValidObject(schema)` on any internal failure is the `none` /
non-`content` branches. -/
def generateJsonFromText (P : JsPrims) (ollama : List Message → Upstream) (text : String)
    (schema : Option Schema) : Json × List (List Message) :=
  match ollama (generateJsonPrompt P text schema) with
  | .content jsonContent =>
    match regenParse P jsonContent with
    | some j => (j, [generateJsonPrompt P text schema])
    | none => (createMinimalValidObject schema, [generateJsonPrompt P text schema])
  | _ => (createMinimalValidObject schema, [generateJsonPrompt P text schema])

/-- `extractJsonFromText(text, schema)` (source lines 90-133): direct parse,
then the first fenced code block's captured group, then the greedy brace
span, then schema-guided regeneration when a schema was supplied, else the
thrown extraction error (carrying the source's fixed message; the original
text is echoed by the endpoint's catch, see `structuredChat`).  The second
component is the list of completion-service calls issued. -/
def extractJsonFromText (P : JsPrims) (ollama : List Message → Upstream) (text : String)
    (schema : Option Schema) : Except String Json × List (List Message) :=
  match P.parse text with
  | some directJson => (.ok directJson, [])
  | none =>
    match (P.codeBlock text).bind (fun mt => P.parse mt.2) with
    | some codeBlockJson => (.ok codeBlockJson, [])
    | none =>
      match (P.braceSpan text).bind (fun s => P.parse s) with
      | some jsonLikeContent => (.ok jsonLikeContent, [])
      | none =>
        match schema with
        | some s =>
          let g := generateJsonFromText P ollama text (some s)
          (.ok g.1, g.2)
        | none => (.error "No se pudo extraer JSON válido de la respuesta", [])

/-- The prompt-augmentation step of the endpoint (source lines 242-267):
when some message has role `system`, a copy of the sequence is produced in
which every system message's content gets the JSON instruction appended
after a blank line; otherwise a fresh system message is prepended to a copy
of the sequence.  The caller's array and message objects are never mutated
(the source maps to fresh objects via spread and unshifts onto `[...messages]`);
in this pure embedding that is inherent. -/
def augmentMessages (P : JsPrims) (messages : List Message) (schema : Schema) : List Message :=
  if messages.any (fun msg => msg.role == "system") then
    messages.map (fun msg =>
      if msg.role == "system" then
        { role := msg.role,
          content := msg.content ++ "\n\n" ++ createJsonFormatSystemPrompt (P.stringifyPretty schema) }
      else msg)
  else
    { role := "system", content := createJsonFormatSystemPrompt (P.stringifyPretty schema) } :: messages

/-- `response_format` of a request: `{type, schema?}`. -/
structure ResponseFormat where
  type : String
  schema : Option Schema

/-- One entry of `transforms`: `{type, fields?}`; `fields := none` models an
absent or falsy `fields` value. -/
structure Transform where
  type : String
  fields : Option (List String)

/-- The `messages` field of a request body: absent, present but not an
array (this also covers present-but-falsy values, which take the same 400
path), or an array of messages. -/
inductive MessagesField where
  | missing
  | notArray
  | arr (ms : List Message)

/-- A request body for `/api/structured-chat`, with the fields the handler
destructures.  The opaque `options` passthrough is not modelled; no stated
property mentions it. -/
structure ChatRequest where
  model : Option String
  messages : MessagesField
  response_format : Option ResponseFormat
  transforms : Option (List Transform)
  service : Option String

/-- An HTTP response of the endpoint, keeping the fields the stated
properties mention (`timestamp` and `latency` are real time and left out):
`ok` is a 200 `res.json` body, `badRequest` a 400, `parseFailure` the 400
carrying `originalResponse` and `parseError`, `serverError` a 500. -/
inductive Response where
  | ok (model : String) (result : Json) (service : String) (warning : Option String)
  | badRequest (error : String)
  | parseFailure (error : String) (originalResponse : String) (parseError : String)
  | serverError (error : String)

/-- `service || 'ollama-middleware'` (and the same pattern for any
string-or-default field). -/
def jsOrStr (o : Option String) (dflt : String) : String :=
  match o with
  | some s => if s == "" then dflt else s
  | none => dflt

/-- The field loop of the `filter` transform (source lines 335-340):
`if (result && field in result) filteredResult[field] = result[field]`.
`.error ()` is the `TypeError` the `in` operator throws on primitive
results, which propagates to the endpoint's outer catch. -/
def applyFilterFields (result : Json) : List String → List (String × Json) →
    Except Unit (List (String × Json))
  | [], acc => .ok acc
  | f :: fs, acc =>
    if jsTruthy result then
      match jsInData f result with
      | none => .error ()
      | some true => applyFilterFields result fs (objAssign acc f (jsIndex result f))
      | some false => applyFilterFields result fs acc
    else applyFilterFields result fs acc

/-- The `for (const transform of transforms)` loop (source lines 332-344):
only `filter` transforms with a truthy `fields` do anything. -/
def applyTransforms : List Transform → Json → Except Unit Json
  | [], result => .ok result
  | t :: ts, result =>
    if t.type == "filter" then
      match t.fields with
      | some fs =>
        match applyFilterFields result fs [] with
        | .ok kvs => applyTransforms ts (.obj kvs)
        | .error e => .error e
      | none => applyTransforms ts result
    else applyTransforms ts result

/-- Outcome of the schema-extraction phase of the handler (source lines
292-328): either an early `return res...` (the warning fallback or the 400
parse failure), or a result that continues to the transform phase. -/
inductive SchemaPhase where
  | early (r : Response)
  | proceed (result : Json)

/-- The `/api/structured-chat` handler (source lines 229-365).  `ollama`
answers both the main completion call and any regeneration call; the second
component of the result is the ordered list of completion-service calls
issued (each given by the message list sent).  The outer `try/catch`
produces `serverError "Error del servidor"`; it is reached by a rejected
main call (`Upstream.fail`) or a `TypeError` thrown inside the transform
loop. -/
def structuredChat (P : JsPrims) (ollama : List Message → Upstream) (req : ChatRequest) :
    Response × List (List Message) :=
  match req.model with
  | none => (.badRequest "Se requiere especificar un modelo", [])
  | some m =>
    if m == "" then (.badRequest "Se requiere especificar un modelo", [])
    else
      match req.messages with
      | .missing => (.badRequest "Se requieren mensajes válidos", [])
      | .notArray => (.badRequest "Se requieren mensajes válidos", [])
      | .arr [] => (.badRequest "Se requieren mensajes válidos", [])
      | .arr (msg0 :: rest) =>
        let messages := msg0 :: rest
        let modifiedMessages :=
          match req.response_format with
          | some rf =>
            match rf.schema with
            | some s => if rf.type == "json_schema" then augmentMessages P messages s else messages
            | none => messages
          | none => messages
        match ollama modifiedMessages with
        | .fail => (.serverError "Error del servidor", [modifiedMessages])
        | .noContent => (.serverError "Respuesta inválida de Ollama", [modifiedMessages])
        | .content c =>
          if c == "" then (.serverError "Respuesta inválida de Ollama", [modifiedMessages])
          else
            let phase : SchemaPhase × List (List Message) :=
              match req.response_format with
              | some rf =>
                if rf.type == "json_schema" then
                  match extractJsonFromText P ollama c rf.schema with
                  | (.ok parsedJson, calls1) =>
                    match rf.schema with
                    | some s =>
                      if validateAgainstSchema parsedJson s then (.proceed parsedJson, calls1)
                      else
                        let g := generateJsonFromText P ollama c (some s)
                        (.proceed g.1, calls1 ++ g.2)
                    | none => (.proceed parsedJson, calls1)
                  | (.error eMsg, calls1) =>
                    match rf.schema with
                    | some s =>
                      (.early (.ok m (createMinimalValidObject (some s))
                          (jsOrStr req.service "ollama-middleware")
                          (some "No se pudo analizar la respuesta del modelo como JSON. Devolviendo fallback generado.")),
                       calls1)
                    | none =>
                      (.early (.parseFailure "Falló al analizar JSON de la respuesta" c eMsg), calls1)
                else (.proceed (.str c), [])
              | none => (.proceed (.str c), [])
            match phase with
            | (.early resp, calls1) => (resp, modifiedMessages :: calls1)
            | (.proceed result0, calls1) =>
              let tres : Except Unit Json :=
                match req.transforms with
                | some ts => applyTransforms ts result0
                | none => .ok result0
              match tres with
              | .error _ => (.serverError "Error del servidor", modifiedMessages :: calls1)
              | .ok result =>
                (.ok m result (jsOrStr req.service "ollama-middleware") none,
                 modifiedMessages :: calls1)

/-- Skip JSON whitespace. -/
def skipWs : List Char → List Char
  | c :: cs => if c == ' ' || c == '\n' || c == '\t' || c == '\r' then skipWs cs else c :: cs
  | [] => []

/-- Parse the remainder of a JSON string literal (after the opening quote),
handling the single-character escapes; `\uXXXX` escapes are outside the
modelled fragment. -/
def parseStrChars : List Char → Option (List Char × List Char)
  | [] => none
  | '"' :: rest => some ([], rest)
  | '\\' :: e :: rest =>
    let c? : Option Char :=
      if e == '"' then some '"'
      else if e == '\\' then some '\\'
      else if e == '/' then some '/'
      else if e == 'n' then some '\n'
      else if e == 't' then some '\t'
      else if e == 'r' then some '\r'
      else none
    match c? with
    | some c => (parseStrChars rest).map (fun p => (c :: p.1, p.2))
    | none => none
  | '\\' :: [] => none
  | c :: rest => (parseStrChars rest).map (fun p => (c :: p.1, p.2))

/-- Accumulate decimal digits. -/
def digitsToNat (acc : Nat) : List Char → Nat × List Char
  | c :: rest => if c.isDigit then digitsToNat (acc * 10 + (c.toNat - 48)) rest else (acc, c :: rest)
  | [] => (acc, [])

/-- Parse a JSON integer literal (the numeric fragment the statements use;
fractions and exponents are outside the modelled fragment). -/
def parseNum (cs : List Char) : Option (Json × List Char) :=
  let sgn : Bool × List Char :=
    match cs with
    | '-' :: r => (true, r)
    | _ => (false, cs)
  match sgn.2 with
  | c :: rest =>
    if c == '0' then
      match rest with
      | d :: _ => if d.isDigit then none else some (.num 0, rest)
      | [] => some (.num 0, [])
    else if c.isDigit then
      let p := digitsToNat (c.toNat - 48) rest
      some (.num (if sgn.1 then -(p.1 : Int) else (p.1 : Int)), p.2)
    else none
  | [] => none

mutual

/-- Parse one JSON value; fuel bounds the recursion depth. -/
def parseVal : Nat → List Char → Option (Json × List Char)
  | 0, _ => none
  | fuel + 1, cs =>
    match skipWs cs with
    | 'n' :: 'u' :: 'l' :: 'l' :: rest => some (.null, rest)
    | 't' :: 'r' :: 'u' :: 'e' :: rest => some (.bool true, rest)
    | 'f' :: 'a' :: 'l' :: 's' :: 'e' :: rest => some (.bool false, rest)
    | '"' :: rest =>
      match parseStrChars rest with
      | some (chars, r) => some (.str (String.mk chars), r)
      | none => none
    | '[' :: rest =>
      match skipWs rest with
      | ']' :: r2 => some (.arr [], r2)
      | cs2 => parseElems fuel cs2 []
    | '{' :: rest =>
      match skipWs rest with
      | '}' :: r2 => some (.obj [], r2)
      | cs2 => parseMembers fuel cs2 []
    | c :: rest => if c == '-' || c.isDigit then parseNum (c :: rest) else none
    | [] => none

/-- Parse the elements of a non-empty JSON array. -/
def parseElems : Nat → List Char → List Json → Option (Json × List Char)
  | 0, _, _ => none
  | fuel + 1, cs, acc =>
    match parseVal fuel cs with
    | none => none
    | some (v, r) =>
      match skipWs r with
      | ']' :: r2 => some (.arr (acc ++ [v]), r2)
      | ',' :: r2 => parseElems fuel r2 (acc ++ [v])
      | _ => none

/-- Parse the members of a non-empty JSON object; duplicate keys reassign in
place, as `JSON.parse` does. -/
def parseMembers : Nat → List Char → List (String × Json) → Option (Json × List Char)
  | 0, _, _ => none
  | fuel + 1, cs, acc =>
    match skipWs cs with
    | '"' :: rest =>
      match parseStrChars rest with
      | none => none
      | some (kcs, r) =>
        match skipWs r with
        | ':' :: r2 =>
          match parseVal fuel r2 with
          | none => none
          | some (v, r3) =>
            match skipWs r3 with
            | '}' :: r4 => some (.obj (objAssign acc (String.mk kcs) v), r4)
            | ',' :: r4 => parseMembers fuel r4 (objAssign acc (String.mk kcs) v)
            | _ => none
        | _ => none
    | _ => none

end

/-- Executable model of `JSON.parse` on the fragment the statements use
(null, booleans, integers, strings with basic escapes, arrays, objects);
`none` models a thrown `SyntaxError`, and trailing non-whitespace is
rejected as `JSON.parse` does. -/
def jsonParse (s : String) : Option Json :=
  match parseVal (s.length * 2 + 8) s.toList with
  | some (j, rest) => if (skipWs rest).isEmpty then some j else none
  | none => none

/-- `pat` occurs at the head of `cs`. -/
def matchesAt : List Char → List Char → Bool
  | [], _ => true
  | _ :: _, [] => false
  | p :: ps, c :: rest => p == c && matchesAt ps rest

/-- Index of the first occurrence of `pat` in a character list. -/
def indexOfSub (pat : List Char) : List Char → Option Nat
  | [] => if pat.isEmpty then some 0 else none
  | c :: rest =>
    if matchesAt pat (c :: rest) then some 0
    else (indexOfSub pat rest).map (fun i => i + 1)

/-- Earliest position where the lazy group of the fenced-block regex can
stop: the terminator `\n?```` ``` ````` with the greedy optional newline.
Returns the content length and the terminator length. -/
def findFenceTerm (k : Nat) (body : List Char) : Option (Nat × Nat) :=
  match body with
  | [] => none
  | _ :: rest =>
    if matchesAt ("\n```".toList) body then some (k, 4)
    else if matchesAt ("```".toList) body then some (k, 3)
    else findFenceTerm (k + 1) rest

/-- Executable model of `` text.match(/```(?:json)?\n?([\s\S]*?)\n?```/) ``:
`some (whole, group)` gives the whole match and the captured group.  The
match starts at the first occurrence of three backticks, greedily consumes
an optional `json` and an optional newline, and the lazy group stops at the
earliest `\n?```` ``` ````` terminator; for this pattern that first-start,
no-backtrack reading coincides with the regex engine's result (a later
start or shorter option can succeed only if some terminator follows it,
and any such terminator already completes the first start). -/
def codeBlockMatch (s : String) : Option (String × String) :=
  let cs := s.toList
  match indexOfSub ("```".toList) cs with
  | none => none
  | some i =>
    let afterTicks := cs.drop (i + 3)
    let jsonLen := if matchesAt ("json".toList) afterTicks then 4 else 0
    let afterJson := afterTicks.drop jsonLen
    let nlLen : Nat :=
      match afterJson with
      | '\n' :: _ => 1
      | _ => 0
    let body := afterJson.drop nlLen
    match findFenceTerm 0 body with
    | none => none
    | some (k, termLen) =>
      some (String.mk ((cs.drop i).take (3 + jsonLen + nlLen + k + termLen)),
            String.mk (body.take k))

/-- Executable model of `text.match(/\{[\s\S]*\}/)`: the greedy span from
the first `\x7b` to the last `\x7d`, when the latter comes after the
former. -/
def jsonLikeMatch (s : String) : Option String :=
  let cs := s.toList
  match cs.findIdx? (fun c => c == '{') with
  | none => none
  | some i =>
    match cs.reverse.findIdx? (fun c => c == '}') with
    | none => none
    | some r =>
      let j := cs.length - 1 - r
      if i < j then some (String.mk ((cs.drop i).take (j - i + 1))) else none

/-- Quote a string for the simple serializer below. -/
def jsQuote (s : String) : String := "\"" ++ s ++ "\""

/-- Render one property sub-schema. -/
def stringifyPropSchema (p : PropSchema) : String :=
  "\x7b" ++
  (match p.type with
   | some t => "\"type\": " ++ jsQuote t
   | none => "") ++
  (match p.description with
   | some d => ", \"description\": " ++ jsQuote d
   | none => "") ++ "\x7d"

/-- A simple executable model of `JSON.stringify` on schemas.  The rendered
text only flows into prompt strings sent to the abstract completion
service; no stated property depends on its exact layout. -/
def stringifySchema (s : Schema) : String :=
  "\x7b" ++
  (match s.type with
   | some t => "\"type\": " ++ jsQuote t ++ ", "
   | none => "") ++
  (match s.properties with
   | some props =>
     "\"properties\": \x7b" ++
     String.intercalate ", " (props.map (fun q => jsQuote q.1 ++ ": " ++ stringifyPropSchema q.2)) ++
     "\x7d, "
   | none => "") ++
  (match s.required with
   | some req => "\"required\": [" ++ String.intercalate ", " (req.map jsQuote) ++ "]"
   | none => "") ++ "\x7d"

/-- The concrete primitive pack used to evaluate statements on concrete
inputs. -/
def defaultPrims : JsPrims :=
  { parse := jsonParse
    codeBlock := codeBlockMatch
    braceSpan := jsonLikeMatch
    stringifyPretty := stringifySchema
    stringifyCompact := fun s? =>
      match s? with
      | some s => stringifySchema s
      | none => "undefined" }

/-- The schema of the spec's §8 scenarios. -/
def demoSchema : Schema :=
  { type := some "object"
    properties := some [("introduction", { type := some "string", description := none }),
                        ("capabilities", { type := some "array", description := none })]
    required := some ["introduction", "capabilities"] }

/-- A completion service that always answers with refusal prose. -/
def ollamaRefusal : List Message → Upstream := fun _ => .content "I cannot help with that."

/-- A structured-chat request asking for `demoSchema`. -/
def reqC1 : ChatRequest :=
  { model := some "gemma"
    messages := .arr [{ role := "user", content := "hola" }]
    response_format := some { type := "json_schema", schema := some demoSchema }
    transforms := none
    service := none }

/-- The completion output used by the C5 counterexample: the fenced block
matches with unparseable content while the brace span holds valid JSON. -/
def contentC5 : String := "```json\nnope\n``` \x7b\"a\": 1\x7d"

/-- A completion service answering with `contentC5`. -/
def ollamaC5 : List Message → Upstream := fun _ => .content contentC5

/-- The request of the C10 statements: no schema requested, one `filter`
transform with a non-empty field list. -/
def reqC10 : ChatRequest :=
  { model := some "m", messages := .arr [{ role := "user", content := "hi" }],
    response_format := none,
    transforms := some [{ type := "filter", fields := some ["a"] }],
    service := none }

/-- Claim-side reading of the validator's per-property type agreement
(claim C6): a declared type among the five checked ones must match the
runtime type; any other declared type — in particular `integer` — imposes
no check. -/
def TypeOkSpec (t : String) (v : Json) : Prop :=
  (t = "number" → v.isNum = true) ∧
  (t = "string" → v.isStr = true) ∧
  (t = "boolean" → v.isBool = true) ∧
  (t = "array" → v.isArr = true) ∧
  (t = "object" → v.isObj = true)

theorem typeOkSpec_of_blank (v : Json) : TypeOkSpec "" v := by
  refine ⟨?_, ?_, ?_, ?_, ?_⟩ <;> (intro h; exact absurd h (by decide))

theorem typeOk_iff (t : String) (v : Json) : (!typeMismatch t v) = true ↔ TypeOkSpec t v := by
  cases v <;>
    simp [typeMismatch, TypeOkSpec, Json.isNum, Json.isStr, Json.isBool, Json.isArr, Json.isObj] <;>
    tauto

theorem checkRequired_obj (req : List String) (kvs : List (String × Json)) :
    checkRequired req (.obj kvs) = some (req.all (fun k => kvs.any (fun p => p.1 == k))) := by
  induction req with
  | nil => rfl
  | cons k ks ih =>
    simp only [checkRequired, jsInData, List.all_cons]
    cases h : kvs.any (fun p => p.1 == k) <;> simp [ih]

theorem validate_obj (kvs : List (String × Json)) (schema : Schema) :
    validateAgainstSchema (.obj kvs) schema =
      (((schema.required).getD []).all (fun k => kvs.any (fun p => p.1 == k)) &&
        checkTypes schema kvs) := by
  unfold validateAgainstSchema
  rw [checkRequired_obj]
  cases h : ((schema.required).getD []).all (fun k => kvs.any (fun p => p.1 == k)) <;>
    simp [jsEntries]

theorem any_key_iff (kvs : List (String × Json)) (k : String) :
    kvs.any (fun p => p.1 == k) = true ↔ ∃ v, (k, v) ∈ kvs := by
  rw [List.any_eq_true]
  constructor
  · rintro ⟨⟨a, b⟩, hab, hk⟩
    have : a = k := by simpa using hk
    subst this
    exact ⟨b, hab⟩
  · rintro ⟨v, hv⟩
    exact ⟨(k, v), hv, by simp⟩

theorem checkTypes_iff (schema : Schema) (kvs : List (String × Json)) :
    checkTypes schema kvs = true ↔
      ∀ k v, (k, v) ∈ kvs → ∀ ps t, propFind schema k = some ps → ps.type = some t →
        TypeOkSpec t v := by
  rw [checkTypes, List.all_eq_true]
  constructor
  · intro h k v hkv ps t hps ht
    have hx := h (k, v) hkv
    simp only [hps, ht] at hx
    by_cases h0 : t = ""
    · subst h0; exact typeOkSpec_of_blank v
    · have hb : (t == "") = false := by simpa using h0
      rw [hb] at hx
      simp only [Bool.false_eq_true, if_false] at hx
      exact (typeOk_iff t v).mp hx
  · intro h p hp
    obtain ⟨k, v⟩ := p
    cases hps : propFind schema k with
    | none => simp [hps]
    | some ps =>
      cases ht : ps.type with
      | none => simp [hps, ht]
      | some t =>
        simp only [hps, ht]
        by_cases h0 : t = ""
        · subst h0; simp
        · have hb : (t == "") = false := by simpa using h0
          rw [hb]
          simp only [Bool.false_eq_true, if_false]
          exact (typeOk_iff t v).mpr (h k v hp ps t hps ht)

/-- C6: `validate(document, schema)` returns `true` exactly when every
required key is present as an own key of the document and every present key
with a property schema declaring one of the five checked types has a value
of the matching runtime type; `integer` and unknown declared types impose no
check, extra keys are tolerated, and (modelled by totality plus the
`false`-on-fault branches of the definition) the validator never raises. -/
theorem C6_validate_iff (kvs : List (String × Json)) (schema : Schema) :
    validateAgainstSchema (Json.obj kvs) schema = true ↔
      ((∀ k, k ∈ (schema.required).getD [] → ∃ v, (k, v) ∈ kvs) ∧
       (∀ k v, (k, v) ∈ kvs → ∀ ps t, propFind schema k = some ps → ps.type = some t →
          TypeOkSpec t v)) := by
  rw [validate_obj, Bool.and_eq_true, List.all_eq_true, checkTypes_iff]
  constructor
  · rintro ⟨h1, h2⟩
    exact ⟨fun k hk => (any_key_iff kvs k).mp (h1 k hk), h2⟩
  · rintro ⟨h1, h2⟩
    exact ⟨fun k hk => (any_key_iff kvs k).mpr (h1 k hk), h2⟩

/-- C6 witness: the iff evaluated at the spec's §8 scenario document. -/
theorem C6_validate_iff_witness :
    validateAgainstSchema
      (Json.obj [("introduction", Json.str "hi"), ("capabilities", Json.arr [])])
      demoSchema = true := by
  refine (C6_validate_iff _ demoSchema).mpr ⟨?_, ?_⟩
  · intro k hk
    simp only [demoSchema, Option.getD, List.mem_cons, List.not_mem_nil, or_false] at hk
    rcases hk with rfl | rfl
    · exact ⟨Json.str "hi", by simp⟩
    · exact ⟨Json.arr [], by simp⟩
  · intro k v hkv ps t hps ht
    simp only [List.mem_cons, List.not_mem_nil, or_false, Prod.mk.injEq] at hkv
    rcases hkv with ⟨rfl, rfl⟩ | ⟨rfl, rfl⟩
    · have h1 : ps = { type := some "string", description := none } := by
        have : propFind demoSchema "introduction" =
            some { type := some "string", description := none } := rfl
        rw [this] at hps; exact (Option.some_inj.mp hps).symm
      subst h1
      have h2 : t = "string" := by simpa using ht.symm
      subst h2
      exact ⟨fun h => absurd h (by decide), fun _ => rfl, fun h => absurd h (by decide),
             fun h => absurd h (by decide), fun h => absurd h (by decide)⟩
    · have h1 : ps = { type := some "array", description := none } := by
        have : propFind demoSchema "capabilities" =
            some { type := some "array", description := none } := rfl
        rw [this] at hps; exact (Option.some_inj.mp hps).symm
      subst h1
      have h2 : t = "array" := by simpa using ht.symm
      subst h2
      exact ⟨fun h => absurd h (by decide), fun h => absurd h (by decide),
             fun h => absurd h (by decide), fun _ => rfl, fun h => absurd h (by decide)⟩

theorem objAssign_any_self (acc : List (String × Json)) (k : String) (v : Json) :
    (objAssign acc k v).any (fun p => p.1 == k) = true := by
  unfold objAssign
  by_cases h : acc.any (fun p => p.1 == k) = true
  · rw [if_pos h, List.any_eq_true]
    rw [List.any_eq_true] at h
    obtain ⟨p, hp, hpk⟩ := h
    exact ⟨(k, v), List.mem_map.mpr ⟨p, hp, by simp [hpk]⟩, by simp⟩
  · rw [if_neg h, List.any_append]
    simp

theorem objAssign_any_mono (acc : List (String × Json)) (k j : String) (v : Json)
    (h : acc.any (fun p => p.1 == j) = true) :
    (objAssign acc k v).any (fun p => p.1 == j) = true := by
  unfold objAssign
  by_cases hk : acc.any (fun p => p.1 == k) = true
  · rw [if_pos hk, List.any_eq_true]
    rw [List.any_eq_true] at h
    obtain ⟨p, hp, hpj⟩ := h
    by_cases hpk : (p.1 == k) = true
    · refine ⟨(k, v), List.mem_map.mpr ⟨p, hp, by simp [hpk]⟩, ?_⟩
      have h1 : p.1 = k := by simpa using hpk
      have h2 : p.1 = j := by simpa using hpj
      simp [← h1, h2]
    · exact ⟨p, List.mem_map.mpr ⟨p, hp, by simp [hpk]⟩, hpj⟩
  · rw [if_neg hk, List.any_append, h]
    simp

theorem foldl_minimalStep_mono (props : List (String × PropSchema)) (req : List String)
    (acc : List (String × Json)) (j : String)
    (h : acc.any (fun p => p.1 == j) = true) :
    (req.foldl (minimalStep props) acc).any (fun p => p.1 == j) = true := by
  induction req generalizing acc with
  | nil => simpa using h
  | cons r rs ih =>
    rw [List.foldl_cons]
    apply ih
    unfold minimalStep
    cases hf : (props.find? (fun q => q.1 == r)).map (fun q => q.2) with
    | none => simpa using h
    | some ps => exact objAssign_any_mono acc r j _ h

theorem foldl_minimalStep_hasKey (props : List (String × PropSchema)) (req : List String)
    (acc : List (String × Json)) (k : String)
    (hk : k ∈ req) (hf : (props.find? (fun q => q.1 == k)).isSome = true) :
    (req.foldl (minimalStep props) acc).any (fun p => p.1 == k) = true := by
  induction req generalizing acc with
  | nil => cases hk
  | cons r rs ih =>
    rw [List.foldl_cons]
    rcases List.mem_cons.mp hk with h | h
    · subst h
      apply foldl_minimalStep_mono
      cases hfind : props.find? (fun q => q.1 == k) with
      | none => rw [hfind] at hf; cases hf
      | some q =>
        unfold minimalStep
        simp only [hfind, Option.map_some']
        exact objAssign_any_self acc k _
    · exact ih _ h

/-- C2 counterexample: for the schema with `properties = {bar: string}` and
`required = ["foo"]`, synthesis skips the required key `foo` (it has no
property entry), the synthesized document is `\x7b\x7d`, and the validator's
presence check rejects it; likewise, with no `properties` at all the result
is the fixed error object, which does not contain `foo` either.  This
refutes the claim that every required key is present in the synthesized
document. -/
theorem C2_counterexample :
    createMinimalValidObject
        (some { type := none,
                properties := some [("bar", { type := some "string", description := none })],
                required := some ["foo"] }) = Json.obj [] ∧
    validateAgainstSchema (Json.obj [])
        { type := none,
          properties := some [("bar", { type := some "string", description := none })],
          required := some ["foo"] } = false ∧
    (createMinimalValidObject (some { type := none, properties := none,
                                      required := some ["foo"] })).hasKey "foo" = false :=
  ⟨rfl, rfl, rfl⟩

/-- C2 amended: when the schema has a `properties` table, every key in
`required` that also has an entry in `properties` is present in the
synthesized document.  (Required keys without a property entry are skipped
by the `if (!propSchema) continue` of the source, and when `properties` is
absent the result is the fixed error object — see `C2_counterexample`.) -/
theorem C2_amended (S : Schema) (props : List (String × PropSchema)) (k : String)
    (hprops : S.properties = some props)
    (hreq : k ∈ (S.required).getD [])
    (hfind : (props.find? (fun q => q.1 == k)).isSome = true) :
    (createMinimalValidObject (some S)).hasKey k = true := by
  have hx : createMinimalValidObject (some S) =
      Json.obj (((S.required).getD []).foldl (minimalStep props) []) := by
    simp only [createMinimalValidObject, hprops]
  rw [hx]
  simp only [Json.hasKey]
  exact foldl_minimalStep_hasKey props _ [] k hreq hfind

/-- C2 amended, witness: the schema of the spec's §8 scenarios has property
entries for both required keys, and both are present in the synthesized
document. -/
theorem C2_amended_witness :
    (createMinimalValidObject (some demoSchema)).hasKey "introduction" = true :=
  C2_amended demoSchema _ "introduction" rfl (by decide) rfl

theorem augmentMessages_get_hasSystem (P : JsPrims) (S : Schema) (msgs : List Message)
    (h : msgs.any (fun m => m.role == "system") = true) (i : Nat) :
    (augmentMessages P msgs S)[i]? = (msgs[i]?).map (fun msg =>
      if msg.role == "system" then
        { role := msg.role,
          content := msg.content ++ "\n\n" ++ createJsonFormatSystemPrompt (P.stringifyPretty S) }
      else msg) := by
  unfold augmentMessages
  rw [if_pos h]
  exact List.getElem?_map _ _ _

theorem augmentMessages_preserves_system (P : JsPrims) (S : Schema) (msgs : List Message)
    (h : msgs.any (fun m => m.role == "system") = true) :
    (augmentMessages P msgs S).any (fun m => m.role == "system") = true := by
  unfold augmentMessages
  rw [if_pos h, List.any_eq_true]
  rw [List.any_eq_true] at h
  obtain ⟨m, hm, hrole⟩ := h
  exact ⟨_, List.mem_map.mpr ⟨m, hm, rfl⟩, by simp [hrole]⟩

/-- C8: when some message has role `system`, augmentation maps the sequence
pointwise — every system message gets the instruction appended to its
content after a blank line, every other message is returned unchanged —
and when none has, the new instruction message is prepended to the
unchanged original sequence.  Mutation-freedom of the caller's array and
message objects is inherent in the pure embedding (the source maps to
fresh objects and unshifts onto a spread copy), and the function is total,
modelling that it never raises. -/
theorem C8_augment (P : JsPrims) (S : Schema) (msgs : List Message) :
    (msgs.any (fun m => m.role == "system") = true →
      ∀ i : Nat, (augmentMessages P msgs S)[i]? = (msgs[i]?).map (fun msg =>
        if msg.role == "system" then
          { role := msg.role,
            content := msg.content ++ "\n\n" ++ createJsonFormatSystemPrompt (P.stringifyPretty S) }
        else msg)) ∧
    (msgs.any (fun m => m.role == "system") = false →
      augmentMessages P msgs S =
        { role := "system", content := createJsonFormatSystemPrompt (P.stringifyPretty S) } :: msgs) := by
  constructor
  · intro h i
    exact augmentMessages_get_hasSystem P S msgs h i
  · intro h
    unfold augmentMessages
    rw [if_neg (by simp [h])]

/-- C8 witness: a singleton system message is augmented in place. -/
theorem C8_augment_witness :
    (augmentMessages defaultPrims [{ role := "system", content := "s0" }] demoSchema)[0]? =
      some { role := "system",
             content := "s0" ++ "\n\n" ++
               createJsonFormatSystemPrompt (defaultPrims.stringifyPretty demoSchema) } := by
  rw [(C8_augment defaultPrims demoSchema [{ role := "system", content := "s0" }]).1 rfl 0]
  rfl

/-- C9: augmenting twice is additive — in the presence of a system message,
the twice-augmented sequence is the once-augmented sequence with the same
instruction block appended once more to every system message's content;
nothing is removed and non-system messages are untouched. -/
theorem C9_augment_additive (P : JsPrims) (S : Schema) (msgs : List Message)
    (h : msgs.any (fun m => m.role == "system") = true) :
    ∀ i : Nat, (augmentMessages P (augmentMessages P msgs S) S)[i]? =
      ((augmentMessages P msgs S)[i]?).map (fun msg =>
        if msg.role == "system" then
          { role := msg.role,
            content := msg.content ++ "\n\n" ++ createJsonFormatSystemPrompt (P.stringifyPretty S) }
        else msg) :=
  augmentMessages_get_hasSystem P S _ (augmentMessages_preserves_system P S msgs h)

/-- C9 witness: augmenting a singleton system message twice appends the
instruction block twice. -/
theorem C9_augment_additive_witness :
    (augmentMessages defaultPrims
        (augmentMessages defaultPrims [{ role := "system", content := "s0" }] demoSchema)
        demoSchema)[0]? =
      some { role := "system",
             content := ("s0" ++ "\n\n" ++
                 createJsonFormatSystemPrompt (defaultPrims.stringifyPretty demoSchema)) ++ "\n\n" ++
               createJsonFormatSystemPrompt (defaultPrims.stringifyPretty demoSchema) } := by
  rw [C9_augment_additive defaultPrims demoSchema [{ role := "system", content := "s0" }] rfl 0]
  rfl

theorem extract_none_schema_error (P : JsPrims) (ollama : List Message → Upstream) (text : String)
    (h1 : P.parse text = none)
    (h2 : (P.codeBlock text).bind (fun mt => P.parse mt.2) = none)
    (h3 : (P.braceSpan text).bind (fun s => P.parse s) = none) :
    extractJsonFromText P ollama text none =
      (Except.error "No se pudo extraer JSON válido de la respuesta", []) := by
  unfold extractJsonFromText
  rw [h1, h2, h3]

/-- C3: extraction tries its strategies in strict order with first success
winning — direct parse, then the first fenced block's captured content, then
the greedy brace span, then schema-guided regeneration exactly when a schema
was supplied — and it fails if and only if no schema was supplied and
strategies 1–3 all fail.  The second block settles the "carrying the
original text" part at the observable boundary: in that failing case the
endpoint answers 400 with `originalResponse` equal to the original upstream
text and `parseError` equal to the thrown message. -/
theorem C3_extract_order :
    (∀ (P : JsPrims) (ollama : List Message → Upstream) (text : String) (schema : Option Schema),
      (∀ j, P.parse text = some j →
        extractJsonFromText P ollama text schema = (Except.ok j, [])) ∧
      (P.parse text = none →
        ∀ j, (P.codeBlock text).bind (fun mt => P.parse mt.2) = some j →
          extractJsonFromText P ollama text schema = (Except.ok j, [])) ∧
      (P.parse text = none → (P.codeBlock text).bind (fun mt => P.parse mt.2) = none →
        ∀ j, (P.braceSpan text).bind (fun s => P.parse s) = some j →
          extractJsonFromText P ollama text schema = (Except.ok j, [])) ∧
      (P.parse text = none → (P.codeBlock text).bind (fun mt => P.parse mt.2) = none →
        (P.braceSpan text).bind (fun s => P.parse s) = none →
        ∀ S, schema = some S →
          extractJsonFromText P ollama text schema =
            (Except.ok (generateJsonFromText P ollama text (some S)).1,
             (generateJsonFromText P ollama text (some S)).2)) ∧
      ((∃ e calls, extractJsonFromText P ollama text schema = (Except.error e, calls)) ↔
        (schema = none ∧ P.parse text = none ∧
         (P.codeBlock text).bind (fun mt => P.parse mt.2) = none ∧
         (P.braceSpan text).bind (fun s => P.parse s) = none))) ∧
    (∀ (P : JsPrims) (ollama : List Message → Upstream) (m : String) (msg0 : Message)
        (ms : List Message) (c : String) (tf : Option (List Transform)) (svc : Option String),
      (m == "") = false → ollama (msg0 :: ms) = .content c → (c == "") = false →
      P.parse c = none → (P.codeBlock c).bind (fun mt => P.parse mt.2) = none →
      (P.braceSpan c).bind (fun s => P.parse s) = none →
      structuredChat P ollama
          { model := some m, messages := .arr (msg0 :: ms),
            response_format := some { type := "json_schema", schema := none },
            transforms := tf, service := svc } =
        (.parseFailure "Falló al analizar JSON de la respuesta" c
           "No se pudo extraer JSON válido de la respuesta", [msg0 :: ms])) := by
  constructor
  · intro P ollama text schema
    refine ⟨?_, ?_, ?_, ?_, ?_⟩
    · intro j hj
      unfold extractJsonFromText
      rw [hj]
    · intro h1 j h2
      unfold extractJsonFromText
      rw [h1, h2]
    · intro h1 h2 j h3
      unfold extractJsonFromText
      rw [h1, h2, h3]
    · intro h1 h2 h3 S hS
      subst hS
      unfold extractJsonFromText
      rw [h1, h2, h3]
    · constructor
      · rintro ⟨e, calls, hx⟩
        unfold extractJsonFromText at hx
        cases hp : P.parse text with
        | some j => rw [hp] at hx; simp at hx
        | none =>
          rw [hp] at hx
          cases hcb : (P.codeBlock text).bind (fun mt => P.parse mt.2) with
          | some j => rw [hcb] at hx; simp at hx
          | none =>
            rw [hcb] at hx
            cases hbs : (P.braceSpan text).bind (fun s => P.parse s) with
            | some j => rw [hbs] at hx; simp at hx
            | none =>
              rw [hbs] at hx
              cases schema with
              | some S => simp at hx
              | none => exact ⟨rfl, rfl, rfl, rfl⟩
      · rintro ⟨h0, h1, h2, h3⟩
        subst h0
        exact ⟨_, _, extract_none_schema_error P ollama text h1 h2 h3⟩
  · intro P ollama m msg0 ms c tf svc hm hollama hc hp hcb hbs
    unfold structuredChat
    simp only [hm, Bool.false_eq_true, if_false, hollama, hc,
      extract_none_schema_error P ollama c hp hcb hbs]
    simp

/-- C3 witness: valid JSON is returned by the first strategy without any
completion-service call, and refusal prose with no schema yields the
extraction error. -/
theorem C3_extract_order_witness :
    (extractJsonFromText defaultPrims ollamaRefusal "42" none = (Except.ok (Json.num 42), [])) ∧
    (∃ e calls, extractJsonFromText defaultPrims ollamaRefusal "I cannot help with that." none =
      (Except.error e, calls)) := by
  constructor
  · exact (C3_extract_order.1 defaultPrims ollamaRefusal "42" none).1 (Json.num 42) rfl
  · exact (C3_extract_order.1 defaultPrims ollamaRefusal "I cannot help with that." none).2.2.2.2.mpr
      ⟨rfl, rfl, rfl, rfl⟩

/-- C4: regeneration never propagates an error — the function is total, and
whenever the completion call fails (rejection or malformed reply) or the
single parse attempt on its output raises, the result is exactly
`createMinimalValidObject(schema)` together with the one transformation
call. -/
theorem C4_regenerate_total (P : JsPrims) (ollama : List Message → Upstream)
    (text : String) (schema : Option Schema) :
    (ollama (generateJsonPrompt P text schema) = .fail →
      generateJsonFromText P ollama text schema =
        (createMinimalValidObject schema, [generateJsonPrompt P text schema])) ∧
    (ollama (generateJsonPrompt P text schema) = .noContent →
      generateJsonFromText P ollama text schema =
        (createMinimalValidObject schema, [generateJsonPrompt P text schema])) ∧
    (∀ c, ollama (generateJsonPrompt P text schema) = .content c → regenParse P c = none →
      generateJsonFromText P ollama text schema =
        (createMinimalValidObject schema, [generateJsonPrompt P text schema])) := by
  refine ⟨?_, ?_, ?_⟩
  · intro h
    unfold generateJsonFromText
    rw [h]
  · intro h
    unfold generateJsonFromText
    rw [h]
  · intro c h hr
    unfold generateJsonFromText
    rw [h]
    dsimp only
    rw [hr]

/-- C4 witness: a rejected transformation call yields the synthesized
fallback. -/
theorem C4_regenerate_total_witness :
    generateJsonFromText defaultPrims (fun _ => Upstream.fail) "hola" (some demoSchema) =
      (createMinimalValidObject (some demoSchema),
       [generateJsonPrompt defaultPrims "hola" (some demoSchema)]) :=
  (C4_regenerate_total defaultPrims (fun _ => Upstream.fail) "hola" (some demoSchema)).1 rfl

/-- C5 counterexample: on `contentC5` the fenced-block pattern matches and
its captured content `nope` fails to parse; the claim then demands that the
brace-span parse (which would succeed with `\x7b"a": 1\x7d`) and the direct
parse still be attempted, but regeneration returns the synthesized fallback
instead — the brace-span result (which contains key `a`) is not returned. -/
theorem C5_counterexample :
    codeBlockMatch contentC5 = some ("```json\nnope\n```", "nope") ∧
    jsonParse "nope" = none ∧
    (jsonLikeMatch contentC5).bind jsonParse = some (Json.obj [("a", Json.num 1)]) ∧
    (generateJsonFromText defaultPrims ollamaC5 "texto" (some demoSchema)).1 =
      createMinimalValidObject (some demoSchema) ∧
    (createMinimalValidObject (some demoSchema)).hasKey "a" = false :=
  ⟨rfl, rfl, rfl, rfl, rfl⟩

/-- C5 amended: within regeneration the completion output is matched first
against the fenced-block pattern and, only when that does not match, against
the brace-span pattern; the single selected candidate (the captured group,
or the whole match when the group is empty or absent) is parsed once; the
raw direct parse is attempted only when neither pattern matches; and when
the one attempted parse fails, regeneration falls back to synthesis without
trying any remaining strategy. -/
theorem C5_amended :
    (∀ (P : JsPrims) (c w g : String), P.codeBlock c = some (w, g) →
      regenParse P c = P.parse (if g == "" then w else g)) ∧
    (∀ (P : JsPrims) (c w : String), P.codeBlock c = none → P.braceSpan c = some w →
      regenParse P c = P.parse w) ∧
    (∀ (P : JsPrims) (c : String), P.codeBlock c = none → P.braceSpan c = none →
      regenParse P c = P.parse c) ∧
    (∀ (P : JsPrims) (ollama : List Message → Upstream) (text : String)
        (schema : Option Schema) (c : String),
      ollama (generateJsonPrompt P text schema) = .content c → regenParse P c = none →
      generateJsonFromText P ollama text schema =
        (createMinimalValidObject schema, [generateJsonPrompt P text schema])) := by
  refine ⟨?_, ?_, ?_, ?_⟩
  · intro P c w g h
    unfold regenParse
    rw [h]
  · intro P c w h1 h2
    unfold regenParse
    rw [h1, h2]
  · intro P c h1 h2
    unfold regenParse
    rw [h1, h2]
  · intro P ollama text schema c h hr
    unfold generateJsonFromText
    rw [h]
    dsimp only
    rw [hr]

/-- C5 amended, witness: the fenced candidate of `contentC5` is selected and
parsed (and fails), so regeneration falls back to synthesis. -/
theorem C5_amended_witness :
    regenParse defaultPrims contentC5 = jsonParse "nope" ∧
    (generateJsonFromText defaultPrims ollamaC5 "texto" (some demoSchema)) =
      (createMinimalValidObject (some demoSchema),
       [generateJsonPrompt defaultPrims "texto" (some demoSchema)]) := by
  constructor
  · exact C5_amended.1 defaultPrims contentC5 "```json\nnope\n```" "nope" rfl
  · exact C5_amended.2.2.2 defaultPrims ollamaC5 "texto" (some demoSchema) contentC5 rfl rfl

theorem extract_some_schema (P : JsPrims) (ollama : List Message → Upstream) (text : String)
    (S : Schema) :
    ∃ j calls, extractJsonFromText P ollama text (some S) = (Except.ok j, calls) := by
  unfold extractJsonFromText
  cases P.parse text with
  | some j => exact ⟨j, [], rfl⟩
  | none =>
    cases (P.codeBlock text).bind (fun mt => P.parse mt.2) with
    | some j => exact ⟨j, [], rfl⟩
    | none =>
      cases (P.braceSpan text).bind (fun s => P.parse s) with
      | some j => exact ⟨j, [], rfl⟩
      | none => exact ⟨_, _, rfl⟩

/-- C7: requests missing a model identifier, or whose messages field is
missing, not a sequence, or empty, are answered with a 400 Bad Request and
the completion service is never contacted (the call trace is empty). -/
theorem C7_badRequest (P : JsPrims) (ollama : List Message → Upstream) (req : ChatRequest)
    (h : req.model = none ∨ req.messages = .missing ∨ req.messages = .notArray ∨
         req.messages = .arr []) :
    ∃ e, structuredChat P ollama req = (Response.badRequest e, []) := by
  obtain ⟨mo, ms, rf, tf, sv⟩ := req
  dsimp only at h
  rcases h with rfl | rfl | rfl | rfl
  · exact ⟨"Se requiere especificar un modelo", rfl⟩
  all_goals
    cases mo with
    | none => exact ⟨"Se requiere especificar un modelo", rfl⟩
    | some m =>
      by_cases hm : (m == "") = true
      · exact ⟨"Se requiere especificar un modelo",
          by unfold structuredChat; dsimp only; rw [if_pos hm]⟩
      · exact ⟨"Se requieren mensajes válidos",
          by unfold structuredChat; dsimp only; rw [if_neg hm]⟩

/-- C7 witness: a request with no model and no messages field is rejected
without any completion-service call. -/
theorem C7_badRequest_witness :
    ∃ e, structuredChat defaultPrims ollamaRefusal
        { model := none, messages := .missing, response_format := none,
          transforms := none, service := none } = (Response.badRequest e, []) :=
  C7_badRequest defaultPrims ollamaRefusal _ (Or.inl rfl)

/-- C1 amended: when a JSON schema is requested and the main completion call
returns non-empty text (and no transforms are supplied), the endpoint always
answers 200 — no extraction, regeneration or validation failure surfaces as
an error — but the response carries no `warning` field, and on total failure
(strategies 1–3 fail and the regeneration call is rejected) the result is the
synthesized fallback document, again without a warning: the source's warning
branch is unreachable when a schema is present, because extraction with a
schema cannot throw. -/
theorem C1_amended (P : JsPrims) (ollama : List Message → Upstream) (m : String)
    (msg0 : Message) (ms : List Message) (S : Schema) (svc : Option String) (c : String)
    (hm : (m == "") = false)
    (hmain : ollama (augmentMessages P (msg0 :: ms) S) = .content c)
    (hc : (c == "") = false) :
    (∃ r, (structuredChat P ollama
        { model := some m, messages := .arr (msg0 :: ms),
          response_format := some { type := "json_schema", schema := some S },
          transforms := none, service := svc }).1 =
      Response.ok m r (jsOrStr svc "ollama-middleware") none) ∧
    (P.parse c = none → (P.codeBlock c).bind (fun mt => P.parse mt.2) = none →
     (P.braceSpan c).bind (fun s => P.parse s) = none →
     ollama (generateJsonPrompt P c (some S)) = Upstream.fail →
     (structuredChat P ollama
        { model := some m, messages := .arr (msg0 :: ms),
          response_format := some { type := "json_schema", schema := some S },
          transforms := none, service := svc }).1 =
      Response.ok m (createMinimalValidObject (some S)) (jsOrStr svc "ollama-middleware") none) := by
  constructor
  · obtain ⟨j, calls, hext⟩ := extract_some_schema P ollama c S
    by_cases hv : validateAgainstSchema j S = true
    · refine ⟨j, ?_⟩
      unfold structuredChat
      simp [hm, hmain, hc, hext, hv]
    · refine ⟨(generateJsonFromText P ollama c (some S)).1, ?_⟩
      unfold structuredChat
      simp [hm, hmain, hc, hext, hv]
  · intro h1 h2 h3 h4
    have hgen : generateJsonFromText P ollama c (some S) =
        (createMinimalValidObject (some S), [generateJsonPrompt P c (some S)]) := by
      unfold generateJsonFromText
      rw [h4]
    have hext : extractJsonFromText P ollama c (some S) =
        (Except.ok (createMinimalValidObject (some S)), [generateJsonPrompt P c (some S)]) := by
      unfold extractJsonFromText
      rw [h1, h2, h3]
      dsimp only
      rw [hgen]
    by_cases hv : validateAgainstSchema (createMinimalValidObject (some S)) S = true
    · unfold structuredChat
      simp [hm, hmain, hc, hext, hv]
    · unfold structuredChat
      simp [hm, hmain, hc, hext, hv, hgen]

/-- C1 amended, witness: the refusal scenario of §8 — extraction and
regeneration both fail, the response is 200 and carries no warning. -/
theorem C1_amended_witness :
    ∃ r, (structuredChat defaultPrims ollamaRefusal
        { model := some "gemma", messages := .arr [{ role := "user", content := "hola" }],
          response_format := some { type := "json_schema", schema := some demoSchema },
          transforms := none, service := none }).1 =
      Response.ok "gemma" r (jsOrStr none "ollama-middleware") none :=
  (C1_amended defaultPrims ollamaRefusal "gemma" { role := "user", content := "hola" } []
    demoSchema none "I cannot help with that." rfl rfl rfl).1

/-- C1 counterexample: a request with a schema whose extraction and
regeneration both fail (the model answers refusal prose both times) gets a
200 response whose result is the synthesized fallback but whose `warning`
field is `none` — refuting the claim that such schema-path failures carry an
explicit `warning`.  The remaining conjuncts certify that every extraction
strategy and the regeneration parse did fail on this input. -/
theorem C1_counterexample :
    (structuredChat defaultPrims ollamaRefusal reqC1).1 =
      Response.ok "gemma"
        (Json.obj [("introduction", Json.str "introduction autogenerado"),
                   ("capabilities", Json.arr [])])
        "ollama-middleware" none ∧
    jsonParse "I cannot help with that." = none ∧
    codeBlockMatch "I cannot help with that." = none ∧
    jsonLikeMatch "I cannot help with that." = none ∧
    regenParse defaultPrims "I cannot help with that." = none :=
  ⟨rfl, rfl, rfl, rfl, rfl⟩

/-- C10 counterexample: with empty upstream text the endpoint does not
return an empty object — the empty content is rejected before the transform
loop runs, as a 500 invalid-upstream-response error. -/
theorem C10_counterexample :
    structuredChat defaultPrims (fun _ => Upstream.content "") reqC10 =
      (Response.serverError "Respuesta inválida de Ollama",
       [[{ role := "user", content := "hi" }]]) ∧
    (structuredChat defaultPrims (fun _ => Upstream.content "") reqC10).1 ≠
      Response.ok "m" (Json.obj []) "ollama-middleware" none :=
  ⟨rfl, fun hx => Response.noConfusion hx⟩

/-- C10 amended: with no schema requested and a `filter` transform carrying
a non-empty field list, every non-empty upstream text makes the endpoint
answer 500 (the `in` membership test on the string result throws, reaching
the outer catch), while an empty upstream text never reaches the transform —
it is rejected earlier as an invalid upstream response (500), so the
empty-object outcome is unreachable. -/
theorem C10_amended (P : JsPrims) (ollama : List Message → Upstream) (m : String)
    (msg0 : Message) (ms : List Message) (c : String) (f : String) (fs : List String)
    (ts : List Transform) (svc : Option String)
    (hm : (m == "") = false)
    (hmain : ollama (msg0 :: ms) = .content c) :
    ((c == "") = false →
      structuredChat P ollama
          { model := some m, messages := .arr (msg0 :: ms), response_format := none,
            transforms := some ({ type := "filter", fields := some (f :: fs) } :: ts),
            service := svc } =
        (.serverError "Error del servidor", [msg0 :: ms])) ∧
    ((c == "") = true →
      structuredChat P ollama
          { model := some m, messages := .arr (msg0 :: ms), response_format := none,
            transforms := some ({ type := "filter", fields := some (f :: fs) } :: ts),
            service := svc } =
        (.serverError "Respuesta inválida de Ollama", [msg0 :: ms])) := by
  constructor
  · intro hc
    have h1 : jsTruthy (Json.str c) = true := by simp [jsTruthy, hc]
    have hfil : applyTransforms ({ type := "filter", fields := some (f :: fs) } :: ts)
        (Json.str c) = .error () := by
      simp [applyTransforms, applyFilterFields, h1, jsInData]
    unfold structuredChat
    simp [hm, hmain, hc, hfil]
  · intro hc
    unfold structuredChat
    simp [hm, hmain, hc]

/-- C10 amended, witness: non-empty raw text plus a filter transform is a
500 server error. -/
theorem C10_amended_witness :
    structuredChat defaultPrims (fun _ => Upstream.content "texto")
        { model := some "m", messages := .arr [{ role := "user", content := "hi" }],
          response_format := none,
          transforms := some [{ type := "filter", fields := some ["a"] }],
          service := none } =
      (Response.serverError "Error del servidor", [[{ role := "user", content := "hi" }]]) :=
  (C10_amended defaultPrims (fun _ => Upstream.content "texto") "m"
    { role := "user", content := "hi" } [] "texto" "a" [] [] none rfl rfl).1 rfl
